import Mathlib

/-!
Shallow embedding of the WebSocket connection-management hook
(`useWebSocket`) of the kabaw-webchat client, together with the
configuration constants it draws from (`WS_CONFIG`).

The hook is a single-threaded event-driven controller.  We embed its
mutable refs and React state as one record `St`, each handler
(`onopen`, `onmessage`, `onclose`, the connection timeout, the backoff
timer) and each public command (`connect`, `disconnect`,
`retryConnection`, `sendMessage`) as a state transformer, and the
asynchronous delivery of transport events as a small-step function
`step : St → Event → Option St` (`none` when the event is not enabled
in the current state).  Observable side effects that leave the
controller (WebSocket constructions, frames handed to `ws.send`,
`ws.close` invocations) are recorded in ghost trace fields
`connAttempts`, `sentFrames`, `closeCalls`.

Fallible JSON parsing of an inbound frame is embedded as the parse
result `Option ChatMessage` carried by the message event: `none` is a
frame that failed to parse.
-/

namespace Kabaw

/-- Connection status union from `src/types/index.ts`. -/
inductive ConnectionStatus
  | connecting
  | connected
  | disconnected
  | error
deriving DecidableEq, Repr

/-- Inbound message record from `src/types/index.ts` (`ChatMessage`).
The `type` field is kept as a raw string because the value comes from
unchecked `JSON.parse`. -/
structure ChatMessage where
  type : String
  username : String
  user_id : Option String
  content : String
  timestamp : String
  channel : String
deriving DecidableEq, Repr

/-- Outbound frame from `src/types/index.ts` (`OutgoingMessage`). -/
structure OutgoingMessage where
  type : String
  content : String
deriving DecidableEq, Repr

/-- Ready state of the browser WebSocket handle held in `wsRef`. -/
inductive ReadyState
  | connecting
  | opened
  | closing
deriving DecidableEq, Repr

/-- Contents of `connectionParamsRef`. -/
structure ConnectionParams where
  username : String
  channel : String
deriving DecidableEq, Repr

/-- `WS_CONFIG.RECONNECT_DELAYS` from `src/config/constants.ts`. -/
def RECONNECT_DELAYS : List Nat := [1000, 2000, 4000, 8000, 16000]

/-- `WS_CONFIG.MAX_RECONNECT_ATTEMPTS` from `src/config/constants.ts`. -/
def MAX_RECONNECT_ATTEMPTS : Nat := 5

/-- `WS_CONFIG.CONNECTION_TIMEOUT` from `src/config/constants.ts`. -/
def CONNECTION_TIMEOUT : Nat := 10000

/-- State of the hook: the `connectionInfo` React state (status,
username, channel, userId, error, reconnectAttempt), the `messages`
list, the mutable refs (`wsRef`, `reconnectAttemptsRef`,
`reconnectTimeoutRef`, `connectionTimeoutRef`, `shouldReconnectRef`,
`connectionParamsRef`, `messageQueueRef`), a counter of detached
sockets whose `onclose` has not yet been delivered, and ghost traces
of the externally observable actions. -/
structure St where
  status : ConnectionStatus
  username : String
  channel : String
  userId : Option String
  error : Option String
  reconnectAttempt : Nat
  messages : List ChatMessage
  ws : Option ReadyState
  reconnectAttempts : Nat
  reconnectTimeout : Option Nat
  connectionTimeout : Bool
  shouldReconnect : Bool
  connectionParams : ConnectionParams
  messageQueue : List String
  orphans : Nat
  connAttempts : List (String × String)
  sentFrames : List OutgoingMessage
  closeCalls : List (Option Nat)
deriving DecidableEq, Repr

/-- Initial hook state (the `useState` initializer and the refs). -/
def initialState : St :=
  { status := ConnectionStatus.disconnected
    username := ""
    channel := "general"
    userId := none
    error := none
    reconnectAttempt := 0
    messages := []
    ws := none
    reconnectAttempts := 0
    reconnectTimeout := none
    connectionTimeout := false
    shouldReconnect := false
    connectionParams := { username := "", channel := "general" }
    messageQueue := []
    orphans := 0
    connAttempts := []
    sentFrames := []
    closeCalls := [] }

/-- `clearTimeouts`: clear both pending timers. -/
def clearTimeouts (s : St) : St :=
  { s with reconnectTimeout := none, connectionTimeout := false }

/-- `updateStatus`: set status and error, and mirror
`reconnectAttemptsRef.current` into `connectionInfo.reconnectAttempt`. -/
def updateStatus (s : St) (status : ConnectionStatus) (error : Option String) : St :=
  { s with status := status, error := error, reconnectAttempt := s.reconnectAttempts }

/-- `getReconnectDelay`: index the backoff schedule, clamped to its
last entry. -/
def getReconnectDelay (attempt : Nat) : Nat :=
  RECONNECT_DELAYS.getD (min attempt (RECONNECT_DELAYS.length - 1)) 0

/-- Body of the `while` loop of `flushMessageQueue`: each shifted
payload is sent unless it is falsy (the empty string). -/
def flushPayloads : List String → List OutgoingMessage
  | [] => []
  | c :: rest =>
      if c = "" then flushPayloads rest
      else { type := "message", content := c } :: flushPayloads rest

/-- `flushMessageQueue`: if the current socket reports itself open,
drain the whole queue through `ws.send`; otherwise do nothing. -/
def flushMessageQueue (s : St) : St :=
  if s.ws = some ReadyState.opened then
    { s with messageQueue := []
             sentFrames := s.sentFrames ++ flushPayloads s.messageQueue }
  else s

/-- Helper of `connectInternal`: close and detach an existing socket
(`wsRef.current.close(); wsRef.current = null`).  The closed socket
becomes an orphan whose `onclose` will still be delivered. -/
def closeCurrent (s : St) : St :=
  match s.ws with
  | some _ =>
      { s with ws := none, orphans := s.orphans + 1
               closeCalls := s.closeCalls ++ [none] }
  | none => s

/-- `connectInternal`: close any existing socket, set status to
connecting, store identity into `connectionInfo` with `userId := null`,
construct a new WebSocket and arm the connection timeout. -/
def connectInternal (s : St) (username channel : String) : St :=
  let s1 := closeCurrent s
  let s2 := updateStatus s1 ConnectionStatus.connecting none
  let s3 : St := { s2 with username := username, channel := channel, userId := none }
  { s3 with ws := some ReadyState.connecting
            connectionTimeout := true
            connAttempts := s3.connAttempts ++ [(username, channel)] }

/-- Public `connect`. -/
def connect (s : St) (username channel : String) : St :=
  let s1 := clearTimeouts s
  let s2 : St :=
    { s1 with shouldReconnect := true
              connectionParams := { username := username, channel := channel }
              reconnectAttempts := 0
              messageQueue := [] }
  connectInternal s2 username channel

/-- Public `disconnect`. -/
def disconnect (s : St) : St :=
  let s1 := clearTimeouts s
  let s2 : St :=
    { s1 with shouldReconnect := false
              reconnectAttempts := 0
              messageQueue := [] }
  let s3 : St :=
    match s2.ws with
    | some _ =>
        { s2 with ws := none, orphans := s2.orphans + 1
                  closeCalls := s2.closeCalls ++ [some 1000] }
    | none => s2
  updateStatus s3 ConnectionStatus.disconnected none

/-- Public `retryConnection`. -/
def retryConnection (s : St) : St :=
  if s.status = ConnectionStatus.error ∨ s.status = ConnectionStatus.disconnected then
    let s1 : St := { s with reconnectAttempts := 0, shouldReconnect := true }
    connectInternal s1
      (if s1.connectionParams.username = "" then "Anonymous" else s1.connectionParams.username)
      (if s1.connectionParams.channel = "" then "general" else s1.connectionParams.channel)
  else s

/-- Helper for `jsTrim`: drop leading whitespace characters. -/
def trimLeftChars : List Char → List Char
  | [] => []
  | c :: cs => if c.isWhitespace then trimLeftChars cs else c :: cs

/-- Model of the JS `String.prototype.trim` used by `sendMessage`:
strip whitespace from both ends (structurally recursive so that it
evaluates on concrete inputs). -/
def jsTrim (s : String) : String :=
  { data := (trimLeftChars ((trimLeftChars s.data).reverse)).reverse }

/-- Public `sendMessage`: returns the boolean result together with the
successor state. -/
def sendMessage (s : St) (content : String) : Bool × St :=
  if jsTrim content = "" then (false, s)
  else if s.ws = some ReadyState.opened then
    (true, { s with sentFrames :=
               s.sentFrames ++ [{ type := "message", content := jsTrim content }] })
  else if s.status = ConnectionStatus.connecting ∧ s.shouldReconnect = true then
    (true, { s with messageQueue := s.messageQueue ++ [jsTrim content] })
  else (false, s)

/-- `ws.onopen` handler.  The platform marks the socket open before
the handler runs; the handler clears the connection timeout, sets
status to connected, resets the attempt counter and flushes the queue. -/
def handleOpen (s : St) : St :=
  let s1 : St := { s with ws := some ReadyState.opened }
  let s2 : St := { s1 with connectionTimeout := false }
  let s3 := updateStatus s2 ConnectionStatus.connected none
  let s4 : St := { s3 with reconnectAttempts := 0 }
  flushMessageQueue s4

/-- TS truthiness of an optional string (`undefined`, `null` and `""`
are falsy). -/
def truthy : Option String → Bool
  | none => false
  | some s => s ≠ ""

/-- `ws.onmessage` handler, applied to the `JSON.parse` result of the
frame: a frame that fails to parse (`none`) is logged and dropped; a
parsed frame sets `userId` when it is a `user_connected` message with
a truthy `user_id`, and is appended to `messages`. -/
def handleMessage (s : St) (frame : Option ChatMessage) : St :=
  match frame with
  | none => s
  | some m =>
      let s1 : St :=
        if m.type = "user_connected" ∧ truthy m.user_id = true then
          { s with userId := m.user_id }
        else s
      { s1 with messages := s1.messages ++ [m] }

/-- User-facing error text derived from a close code (the
`errorMessage` computation of `ws.onclose`). -/
def closeErrorMessage (code : Nat) : Option String :=
  if code = 1006 then some "Connection lost unexpectedly"
  else if code = 1001 then some "Server is going away"
  else if code ≠ 1000 ∧ code ≠ 1005 then
    some ("Connection closed (code: " ++ toString code ++ ")")
  else none

/-- Status message shown while a reconnect is scheduled. -/
def reconnectStatusMsg (delay : Nat) (n : Nat) : String :=
  "Reconnecting in " ++ toString (delay / 1000) ++ "s... (" ++ toString n ++ "/"
    ++ toString MAX_RECONNECT_ATTEMPTS ++ ")"

/-- `ws.onclose` handler: clear the connection timeout, clear
`userId`, detach the socket, then either schedule a backoff reattempt
(computing the delay at the current attempt value, then incrementing
the counter), give up, or settle into disconnected with the derived
error text. -/
def handleClose (s : St) (code : Nat) : St :=
  let s1 : St := { s with connectionTimeout := false, userId := none, ws := none }
  if s1.shouldReconnect = true ∧ s1.reconnectAttempts < MAX_RECONNECT_ATTEMPTS then
    let delay := getReconnectDelay s1.reconnectAttempts
    let s2 : St := { s1 with reconnectAttempts := s1.reconnectAttempts + 1 }
    let s3 := updateStatus s2 ConnectionStatus.connecting
      (some (reconnectStatusMsg delay s2.reconnectAttempts))
    { s3 with reconnectTimeout := some delay }
  else if s1.shouldReconnect = true then
    updateStatus s1 ConnectionStatus.error
      (some "Unable to connect. Please check if the server is running.")
  else
    updateStatus s1 ConnectionStatus.disconnected (closeErrorMessage code)

/-- Connection-timeout handler: if the socket did not reach the open
state, force-close it and report a timeout error. -/
def connTimeoutHandler (s : St) : St :=
  match s.ws with
  | some ReadyState.opened => s
  | some _ =>
      let s1 : St := { s with ws := some ReadyState.closing
                              closeCalls := s.closeCalls ++ [none] }
      updateStatus s1 ConnectionStatus.error
        (some "Connection timeout - server may be unavailable")
  | none =>
      updateStatus s ConnectionStatus.error
        (some "Connection timeout - server may be unavailable")

/-- Events the controller can receive: the public commands, the
transport events of the current socket, the pending `onclose` of a
detached socket, and the two timer firings. -/
inductive Event
  | connectCmd (username channel : String)
  | disconnectCmd
  | retryCmd
  | sendCmd (content : String)
  | openEvt
  | msgEvt (frame : Option ChatMessage)
  | closeEvt (code : Nat)
  | orphanCloseEvt (code : Nat)
  | reconnectFire
  | connTimeoutFire

/-- Events that are not user commands that start a connection:
everything except `connect` and `retryConnection`. -/
def Event.isInternal : Event → Bool
  | Event.connectCmd _ _ => false
  | Event.retryCmd => false
  | _ => true

/-- Small-step semantics: apply an event when it is enabled. -/
def step (s : St) : Event → Option St
  | Event.connectCmd u c => some (connect s u c)
  | Event.disconnectCmd => some (disconnect s)
  | Event.retryCmd => some (retryConnection s)
  | Event.sendCmd content => some (sendMessage s content).2
  | Event.openEvt =>
      if s.ws = some ReadyState.connecting then some (handleOpen s) else none
  | Event.msgEvt f =>
      if s.ws = some ReadyState.opened then some (handleMessage s f) else none
  | Event.closeEvt code =>
      if s.ws = none then none else some (handleClose s code)
  | Event.orphanCloseEvt code =>
      if s.orphans = 0 then none
      else some (handleClose { s with orphans := s.orphans - 1 } code)
  | Event.reconnectFire =>
      match s.reconnectTimeout with
      | some _ =>
          some (connectInternal { s with reconnectTimeout := none }
                  s.connectionParams.username s.connectionParams.channel)
      | none => none
  | Event.connTimeoutFire =>
      if s.connectionTimeout = true then
        some (connTimeoutHandler { s with connectionTimeout := false })
      else none

/-- Run a list of events, skipping the ones that are not enabled. -/
def run (s : St) : List Event → St
  | [] => s
  | e :: es =>
      match step s e with
      | some s1 => run s1 es
      | none => run s es

/-- Fold of `ws.onmessage` over a delivered sequence of parse results. -/
def processFrames (s : St) (frames : List (Option ChatMessage)) : St :=
  frames.foldl handleMessage s

/-! ## Helper lemmas -/

/-- Unfolding of `getReconnectDelay` with the schedule length evaluated. -/
lemma getReconnectDelay_eq (a : Nat) :
    getReconnectDelay a = RECONNECT_DELAYS.getD (min a 4) 0 := rfl

/-- The backoff schedule is sorted, checked pointwise on its indices. -/
lemma delay_mono_aux :
    ∀ j < 5, ∀ i < 5, i ≤ j → RECONNECT_DELAYS.getD i 0 ≤ RECONNECT_DELAYS.getD j 0 := by
  decide

/-- The generic close message never coincides with the abnormal-loss
message, whatever the code renders to. -/
lemma genericMsg_ne_lost (code : Nat) :
    ("Connection closed (code: " ++ toString code ++ ")") ≠ "Connection lost unexpectedly" := by
  intro h
  have h2 := congrArg String.data h
  simp [String.data_append] at h2

/-- The generic close message never coincides with the peer-shutdown
message, whatever the code renders to. -/
lemma genericMsg_ne_away (code : Nat) :
    ("Connection closed (code: " ++ toString code ++ ")") ≠ "Server is going away" := by
  intro h
  have h2 := congrArg String.data h
  simp [String.data_append] at h2

/-- Malformed frames are dropped without any state change. -/
lemma handleMessage_none (s : St) : handleMessage s none = s := rfl

/-- A parsed frame is appended to the message log. -/
lemma handleMessage_some_messages (s : St) (m : ChatMessage) :
    (handleMessage s (some m)).messages = s.messages ++ [m] := by
  by_cases hc : m.type = "user_connected" ∧ truthy m.user_id = true <;>
    simp [handleMessage, hc]

/-- The message handler never touches the outbound queue. -/
lemma handleMessage_messageQueue (s : St) (f : Option ChatMessage) :
    (handleMessage s f).messageQueue = s.messageQueue := by
  cases f with
  | none => rfl
  | some m =>
      by_cases hc : m.type = "user_connected" ∧ truthy m.user_id = true <;>
        simp [handleMessage, hc]

/-- One fold step of `processFrames`. -/
lemma processFrames_cons (s : St) (f : Option ChatMessage) (rest : List (Option ChatMessage)) :
    processFrames s (f :: rest) = processFrames (handleMessage s f) rest := rfl

/-- The message log after a delivered sequence of frames is the old
log followed by the parsed frames in delivery order. -/
lemma processFrames_messages (s : St) (frames : List (Option ChatMessage)) :
    (processFrames s frames).messages = s.messages ++ frames.filterMap id := by
  induction frames generalizing s with
  | nil => simp [processFrames]
  | cons f rest ih =>
      rw [processFrames_cons, ih]
      cases f with
      | none => simp [handleMessage_none]
      | some m => simp [handleMessage_some_messages]

/-- When every queued payload is non-empty, the flush loop sends each
payload once, in order. -/
lemma flushPayloads_map (q : List String) (hq : ∀ c ∈ q, c ≠ "") :
    flushPayloads q = q.map (fun c => { type := "message", content := c }) := by
  induction q with
  | nil => rfl
  | cons c rest ih =>
      have hc : c ≠ "" := hq c (by simp)
      simp [flushPayloads, hc, ih (fun x hx => hq x (by simp [hx]))]

/-- `closeCurrent` does not touch the outbound queue. -/
lemma closeCurrent_messageQueue (s : St) : (closeCurrent s).messageQueue = s.messageQueue := by
  unfold closeCurrent
  split <;> rfl

/-- `connectInternal` does not touch the outbound queue. -/
lemma connectInternal_messageQueue (s : St) (u c : String) :
    (connectInternal s u c).messageQueue = s.messageQueue := by
  simp [connectInternal, updateStatus, closeCurrent_messageQueue]

/-! ## Sample states used by witnesses -/

/-- Sample state with an open socket. -/
def sampleOpenState : St :=
  { initialState with ws := some ReadyState.opened, status := ConnectionStatus.connected }

/-- Sample state waiting on a reconnect (connecting, auto-reconnect on). -/
def sampleQueueState : St :=
  { initialState with status := ConnectionStatus.connecting, shouldReconnect := true }

/-- Sample state at the moment `onopen` fires after failed attempts,
with two payloads queued. -/
def sampleQueuedState : St :=
  { initialState with ws := some ReadyState.connecting
                      status := ConnectionStatus.connecting
                      shouldReconnect := true
                      reconnectAttempts := 3
                      messageQueue := ["a", "b"] }

/-- Sample state with a scheduled backoff timer. -/
def sampleBackoffState : St :=
  { initialState with status := ConnectionStatus.connecting
                      shouldReconnect := true
                      reconnectAttempts := 1
                      reconnectTimeout := some 1000
                      connectionParams := { username := "Alice", channel := "general" }
                      messageQueue := ["q1"] }

/-- Sample connected state with an assigned participant id. -/
def sampleUserState : St :=
  { initialState with ws := some ReadyState.opened
                      status := ConnectionStatus.connected
                      userId := some "u1" }

/-- A `user_connected` handshake frame assigning participant id `u1`. -/
def ucMsg : ChatMessage :=
  { type := "user_connected", username := "server", user_id := some "u1",
    content := "welcome", timestamp := "t0", channel := "general" }

/-- Trace of C1: a fresh connect followed by one abnormal close. -/
def c1Trace : List Event :=
  [Event.connectCmd "Alice" "general", Event.closeEvt 1006]

/-- Trace of C7: connect, open, receive the handshake id, then an
explicit disconnect. -/
def c7Trace : List Event :=
  [Event.connectCmd "Alice" "general", Event.openEvt,
   Event.msgEvt (some ucMsg), Event.disconnectCmd]

/-! ## Quiescence after disconnect -/

/-- State predicate holding right after `disconnect`: auto-reconnect
off, no pending timers, no socket, status disconnected. -/
def DisconnectedInv (s : St) : Prop :=
  s.shouldReconnect = false ∧ s.reconnectTimeout = none ∧ s.connectionTimeout = false ∧
    s.ws = none ∧ s.status = ConnectionStatus.disconnected

/-- Any event other than a `connect` or `retryConnection` command
preserves `DisconnectedInv` and constructs no new WebSocket. -/
lemma step_preserves_disconnectedInv (s : St) (e : Event) (hi : DisconnectedInv s)
    (he : e.isInternal = true) :
    ∀ s2, step s e = some s2 → DisconnectedInv s2 ∧ s2.connAttempts = s.connAttempts := by
  obtain ⟨h1, h2, h3, h4, h5⟩ := hi
  intro s2 hs2
  cases e with
  | connectCmd u c => simp [Event.isInternal] at he
  | retryCmd => simp [Event.isInternal] at he
  | disconnectCmd =>
      simp only [step, Option.some.injEq] at hs2
      subst hs2
      cases hws : s.ws with
      | none => simp_all [disconnect, clearTimeouts, updateStatus, DisconnectedInv]
      | some r => simp_all
  | sendCmd content =>
      simp only [step, Option.some.injEq] at hs2
      subst hs2
      simp only [sendMessage]
      split_ifs <;> simp_all [DisconnectedInv]
  | openEvt => simp [step, h4] at hs2
  | msgEvt f => simp [step, h4] at hs2
  | closeEvt code => simp [step, h4] at hs2
  | orphanCloseEvt code =>
      by_cases ho : s.orphans = 0
      · simp [step, ho] at hs2
      · simp only [step, ho, if_false, Option.some.injEq] at hs2
        subst hs2
        simp [handleClose, updateStatus, DisconnectedInv, h1, h2]
  | reconnectFire => simp [step, h2] at hs2
  | connTimeoutFire => simp [step, h3] at hs2

/-- Running any sequence of internal events from a quiescent state
stays quiescent and constructs no new WebSocket. -/
lemma run_internal_preserves (evs : List Event) :
    ∀ s : St, DisconnectedInv s → (∀ e ∈ evs, e.isInternal = true) →
      DisconnectedInv (run s evs) ∧ (run s evs).connAttempts = s.connAttempts := by
  induction evs with
  | nil => exact fun s hi _ => ⟨hi, rfl⟩
  | cons e rest ih =>
      intro s hi hall
      have he := hall e (by simp)
      have hrest : ∀ x ∈ rest, x.isInternal = true := fun x hx => hall x (by simp [hx])
      cases hstep : step s e with
      | none =>
          have : run s (e :: rest) = run s rest := by simp [run, hstep]
          rw [this]
          exact ih s hi hrest
      | some s2 =>
          have hpres := step_preserves_disconnectedInv s e ⟨hi.1, hi.2.1, hi.2.2.1,
            hi.2.2.2.1, hi.2.2.2.2⟩ he s2 hstep
          have : run s (e :: rest) = run s2 rest := by simp [run, hstep]
          rw [this]
          obtain ⟨hinv2, hca2⟩ := hpres
          obtain ⟨hinv3, hca3⟩ := ih s2 hinv2 hrest
          exact ⟨hinv3, hca3.trans hca2⟩

/-! ## Claim theorems -/

/-- C8: for every non-negative attempt count the backoff schedule
index is in bounds (the lookup is total), `getReconnectDelay` is
monotonically non-decreasing, bounded by the maximum schedule entry
16000, and saturates at 16000 from index length − 1 on; 16000 is the
last and maximum entry of the schedule. -/
theorem C8_backoff_policy (a b : Nat) (hab : a ≤ b) :
    min a (RECONNECT_DELAYS.length - 1) < RECONNECT_DELAYS.length ∧
    getReconnectDelay a ≤ getReconnectDelay b ∧
    getReconnectDelay a ≤ 16000 ∧
    (RECONNECT_DELAYS.length - 1 ≤ a → getReconnectDelay a = 16000) ∧
    16000 ∈ RECONNECT_DELAYS ∧ (∀ x ∈ RECONNECT_DELAYS, x ≤ 16000) := by
  have hlen : RECONNECT_DELAYS.length = 5 := by decide
  refine ⟨by omega, ?_, ?_, ?_, by decide, by decide⟩
  · rw [getReconnectDelay_eq, getReconnectDelay_eq]
    exact delay_mono_aux (min b 4) (by omega) (min a 4) (by omega) (by omega)
  · rw [getReconnectDelay_eq]
    have h := delay_mono_aux 4 (by omega) (min a 4) (by omega) (by omega)
    simpa using h
  · intro ha
    rw [getReconnectDelay_eq]
    have hmin : min a 4 = 4 := by omega
    rw [hmin]
    decide

/-- C8 witness at a concrete pair of attempt counts. -/
theorem C8_backoff_policy_witness :
    getReconnectDelay 2 ≤ getReconnectDelay 7 ∧ getReconnectDelay 7 = 16000 := by
  have h := C8_backoff_policy 2 7 (by decide)
  exact ⟨h.2.1, (C8_backoff_policy 7 7 (by decide)).2.2.2.1 (by decide)⟩

/-- C9: the user-facing error text is a pure function of the close
code: code 1006 (and only 1006) yields the abnormal-loss message,
code 1001 (and only 1001) yields the peer-shutdown message, exactly
codes 1000 and 1005 yield no error, and every other code yields the
generic message rendering that code. -/
theorem C9_close_code_policy (code : Nat) :
    (closeErrorMessage code = some "Connection lost unexpectedly" ↔ code = 1006) ∧
    (closeErrorMessage code = some "Server is going away" ↔ code = 1001) ∧
    (closeErrorMessage code = none ↔ (code = 1000 ∨ code = 1005)) ∧
    (code ≠ 1000 → code ≠ 1001 → code ≠ 1005 → code ≠ 1006 →
      closeErrorMessage code = some ("Connection closed (code: " ++ toString code ++ ")")) := by
  by_cases h6 : code = 1006
  · subst h6; simp [closeErrorMessage]
  · by_cases h1 : code = 1001
    · subst h1; simp [closeErrorMessage]
    · by_cases h0 : code = 1000
      · subst h0; simp [closeErrorMessage]
      · by_cases h5 : code = 1005
        · subst h5; simp [closeErrorMessage]
        · have hg : closeErrorMessage code
              = some ("Connection closed (code: " ++ toString code ++ ")") := by
            simp [closeErrorMessage, h6, h1, h0, h5]
          refine ⟨?_, ?_, ?_, fun _ _ _ _ => hg⟩
          · rw [hg]
            constructor
            · intro h
              exact absurd (Option.some.inj h) (genericMsg_ne_lost code)
            · intro h
              exact absurd h h6
          · rw [hg]
            constructor
            · intro h
              exact absurd (Option.some.inj h) (genericMsg_ne_away code)
            · intro h
              exact absurd h h1
          · rw [hg]
            constructor
            · intro h
              exact absurd h (by simp)
            · intro h
              rcases h with h | h
              · exact absurd h h0
              · exact absurd h h5

/-- C1 counterexample: after `connect("Alice", "general")` and one
abnormal close, the attempt counter is 1 but the scheduled timer
duration is 1000 ms — `getReconnectDelay` evaluated at the
pre-increment attempt value 0, not at the incremented value 1 (which
would give 2000 ms).  The claim that the duration is the delay at the
incremented attempt value is therefore false on this input. -/
theorem C1_counterexample :
    (run initialState c1Trace).reconnectAttempts = 1 ∧
    (run initialState c1Trace).reconnectTimeout = some 1000 ∧
    getReconnectDelay (run initialState c1Trace).reconnectAttempts = 2000 ∧
    (run initialState c1Trace).reconnectTimeout
      ≠ some (getReconnectDelay (run initialState c1Trace).reconnectAttempts) := by
  refine ⟨by decide, by decide, by decide, by decide⟩

/-- C1 (amended): on every close with `shouldReconnect` true and the
attempt counter strictly below `maxAttempts`, the controller computes
the delay as `getReconnectDelay` of the pre-increment attempt value,
then increments the counter and schedules the timer with that delay,
leaving the stored identity untouched; concretely, after a fresh
`connect("Alice", "general")` and one abnormal close the counter is 1,
the timer is scheduled with `getReconnectDelay 0`, and the timer-fired
reattempt reuses the stored identity `("Alice", "general")`. -/
theorem C1_reconnect_scheduling (s : St) (code : Nat)
    (hsr : s.shouldReconnect = true) (hlt : s.reconnectAttempts < MAX_RECONNECT_ATTEMPTS) :
    (handleClose s code).reconnectAttempts = s.reconnectAttempts + 1 ∧
    (handleClose s code).reconnectTimeout = some (getReconnectDelay s.reconnectAttempts) ∧
    (handleClose s code).connectionParams = s.connectionParams ∧
    (run initialState c1Trace).reconnectAttempts = 1 ∧
    (run initialState c1Trace).reconnectTimeout = some (getReconnectDelay 0) ∧
    (run initialState c1Trace).connectionParams
        = { username := "Alice", channel := "general" } ∧
    (run initialState (c1Trace ++ [Event.reconnectFire])).connAttempts
        = [("Alice", "general"), ("Alice", "general")] := by
  refine ⟨?_, ?_, ?_, by decide, by decide, by decide, by decide⟩ <;>
    simp [handleClose, updateStatus, hsr, hlt]

/-- C1 witness: the amended scheduling applied at a concrete backoff
state with one prior failed attempt. -/
theorem C1_reconnect_scheduling_witness :
    (handleClose sampleBackoffState 1006).reconnectAttempts = 2 ∧
    (handleClose sampleBackoffState 1006).reconnectTimeout
        = some (getReconnectDelay 1) := by
  have h := C1_reconnect_scheduling sampleBackoffState 1006 rfl (by decide)
  exact ⟨h.1, h.2.1⟩

/-- C2: `disconnect` cancels both pending timers, turns off
auto-reconnect, closes the active link with normal-closure code 1000,
reports status disconnected, and afterwards no sequence of internal
events (timer firings, socket events, sends, further disconnects) ever
constructs a new WebSocket, re-enters connecting, or re-creates a
socket. -/
theorem C2_disconnect_quiescence (s : St) (evs : List Event)
    (hall : ∀ e ∈ evs, e.isInternal = true) :
    (disconnect s).shouldReconnect = false ∧
    (disconnect s).reconnectTimeout = none ∧
    (disconnect s).connectionTimeout = false ∧
    (disconnect s).status = ConnectionStatus.disconnected ∧
    (disconnect s).connAttempts = s.connAttempts ∧
    (s.ws ≠ none → (disconnect s).closeCalls = s.closeCalls ++ [some 1000]) ∧
    (run (disconnect s) evs).connAttempts = s.connAttempts ∧
    (run (disconnect s) evs).ws = none ∧
    (run (disconnect s) evs).status = ConnectionStatus.disconnected := by
  have hinv : DisconnectedInv (disconnect s) := by
    cases hws : s.ws with
    | none => simp [disconnect, clearTimeouts, updateStatus, DisconnectedInv, hws]
    | some r => simp [disconnect, clearTimeouts, updateStatus, DisconnectedInv, hws]
  have hca : (disconnect s).connAttempts = s.connAttempts := by
    cases hws : s.ws with
    | none => simp [disconnect, clearTimeouts, updateStatus, hws]
    | some r => simp [disconnect, clearTimeouts, updateStatus, hws]
  have hrun := run_internal_preserves evs (disconnect s) hinv hall
  refine ⟨hinv.1, hinv.2.1, hinv.2.2.1, hinv.2.2.2.2, hca, ?_,
          hrun.2.trans hca, hrun.1.2.2.2.1, hrun.1.2.2.2.2⟩
  intro hw
  cases hws : s.ws with
  | none => exact absurd hws hw
  | some r => simp [disconnect, clearTimeouts, updateStatus, hws]

/-- C2 witness: disconnecting from a state with a scheduled backoff
timer and an open socket, then letting the stale timer fire, an orphan
close arrive and a send be attempted — no connection attempt occurs
and the status stays disconnected. -/
theorem C2_disconnect_quiescence_witness :
    (run (disconnect sampleBackoffState)
        [Event.reconnectFire, Event.orphanCloseEvt 1006, Event.sendCmd "hi",
         Event.connTimeoutFire, Event.disconnectCmd]).connAttempts = [] ∧
    (run (disconnect sampleBackoffState)
        [Event.reconnectFire, Event.orphanCloseEvt 1006, Event.sendCmd "hi",
         Event.connTimeoutFire, Event.disconnectCmd]).status
        = ConnectionStatus.disconnected := by
  have h := C2_disconnect_quiescence sampleBackoffState
    [Event.reconnectFire, Event.orphanCloseEvt 1006, Event.sendCmd "hi",
     Event.connTimeoutFire, Event.disconnectCmd] (by decide)
  exact ⟨h.2.2.2.2.2.2.1.trans (by decide), h.2.2.2.2.2.2.2.2⟩

/-- C7 counterexample: connect, open, receive the handshake id, then
an explicit disconnect — the resulting reachable state has a non-null
`userId` while the status is disconnected, violating the claimed
invariant that `userId` is non-null only while connected. -/
theorem C7_counterexample :
    (run initialState c7Trace).userId = some "u1" ∧
    (run initialState c7Trace).status = ConnectionStatus.disconnected ∧
    (run initialState c7Trace).status ≠ ConnectionStatus.connected := by
  refine ⟨by decide, by decide, by decide⟩

/-- C7 (amended): `userId` is set to null at the start of every
connection attempt, is changed by an inbound frame only when it parses
as a `user_connected` message with a truthy `user_id` (and message
events are only enabled while the socket is open), and is cleared on
every delivered close of the link; but `disconnect()` itself leaves
`userId` untouched, so until the close event of the torn-down link is
delivered the id can remain non-null while the status is disconnected
— non-nullness of `userId` does not imply status = connected. -/
theorem C7_userId_lifecycle (s : St) (u c : String) (code : Nat) (m : ChatMessage)
    (f : Option ChatMessage) :
    (connectInternal s u c).userId = none ∧
    (handleClose s code).userId = none ∧
    (handleMessage s none).userId = s.userId ∧
    ((handleMessage s (some m)).userId
        = if m.type = "user_connected" ∧ truthy m.user_id = true then m.user_id
          else s.userId) ∧
    (∀ s2, step s (Event.msgEvt f) = some s2 → s.ws = some ReadyState.opened) ∧
    (disconnect s).userId = s.userId := by
  refine ⟨rfl, ?_, rfl, ?_, ?_, ?_⟩
  · simp only [handleClose, updateStatus]
    split_ifs <;> rfl
  · by_cases hc : m.type = "user_connected" ∧ truthy m.user_id = true <;>
      simp [handleMessage, hc]
  · intro s2 hs2
    by_cases hw : s.ws = some ReadyState.opened
    · exact hw
    · simp [step, hw] at hs2
  · simp only [disconnect, clearTimeouts, updateStatus]
    split <;> rfl

/-- C7 witness: the lifecycle facts applied at a connected state
holding participant id `u1`. -/
theorem C7_userId_lifecycle_witness :
    (connectInternal sampleUserState "Alice" "general").userId = none ∧
    (handleClose sampleUserState 1000).userId = none ∧
    (disconnect sampleUserState).userId = some "u1" := by
  have h := C7_userId_lifecycle sampleUserState "Alice" "general" 1000 ucMsg none
  exact ⟨h.1, h.2.1, h.2.2.2.2.2.trans (by decide)⟩

/-- C3: `sendMessage` returns false and leaves the state unchanged on
content that trims to empty, in every state; otherwise it sends
immediately (returning true) when the socket reports itself open;
otherwise it enqueues and returns true when the status is connecting
and `shouldReconnect` holds; in every remaining case it returns false
and changes nothing. -/
theorem C3_sendMessage_contract (s : St) (content : String) :
    (jsTrim content = "" → sendMessage s content = (false, s)) ∧
    (jsTrim content ≠ "" → s.ws = some ReadyState.opened →
      sendMessage s content = (true, { s with sentFrames :=
        s.sentFrames ++ [{ type := "message", content := jsTrim content }] })) ∧
    (jsTrim content ≠ "" → s.ws ≠ some ReadyState.opened →
      s.status = ConnectionStatus.connecting → s.shouldReconnect = true →
      sendMessage s content
        = (true, { s with messageQueue := s.messageQueue ++ [jsTrim content] })) ∧
    (jsTrim content ≠ "" → s.ws ≠ some ReadyState.opened →
      ¬(s.status = ConnectionStatus.connecting ∧ s.shouldReconnect = true) →
      sendMessage s content = (false, s)) := by
  refine ⟨fun h => by simp [sendMessage, h],
          fun h hw => by simp [sendMessage, h, hw],
          fun h hw hs hr => by simp [sendMessage, h, hw, hs, hr],
          fun h hw hns => by simp [sendMessage, h, hw, hns]⟩

/-- C3 witness: an open-socket send, a queued send, a rejected empty
send, and a rejected disconnected send, at concrete inputs. -/
theorem C3_sendMessage_contract_witness :
    sendMessage sampleOpenState " hi " = (true, { sampleOpenState with sentFrames :=
      sampleOpenState.sentFrames ++ [{ type := "message", content := jsTrim " hi " }] }) ∧
    sendMessage sampleQueueState "ok" = (true, { sampleQueueState with messageQueue :=
      sampleQueueState.messageQueue ++ [jsTrim "ok"] }) ∧
    sendMessage sampleOpenState "   " = (false, sampleOpenState) ∧
    sendMessage initialState "hello" = (false, initialState) := by
  refine ⟨(C3_sendMessage_contract sampleOpenState " hi ").2.1 (by decide) rfl,
          (C3_sendMessage_contract sampleQueueState "ok").2.2.1 (by decide) (by decide) rfl rfl,
          (C3_sendMessage_contract sampleOpenState "   ").1 (by decide),
          (C3_sendMessage_contract initialState "hello").2.2.2 (by decide) (by decide) (by decide)⟩

/-- C10: whenever the content is non-empty after trimming, what
reaches the wire (open-socket branch) or the queue (reconnecting
branch) is exactly the trimmed content. -/
theorem C10_trimmed_payload (s : St) (content : String) (h : jsTrim content ≠ "") :
    (s.ws = some ReadyState.opened →
      (sendMessage s content).2.sentFrames
          = s.sentFrames ++ [{ type := "message", content := jsTrim content }] ∧
      (sendMessage s content).2.messageQueue = s.messageQueue) ∧
    (s.ws ≠ some ReadyState.opened → s.status = ConnectionStatus.connecting →
      s.shouldReconnect = true →
      (sendMessage s content).2.messageQueue = s.messageQueue ++ [jsTrim content] ∧
      (sendMessage s content).2.sentFrames = s.sentFrames) := by
  refine ⟨fun hw => by simp [sendMessage, h, hw],
          fun hw hs hr => by simp [sendMessage, h, hw, hs, hr]⟩

/-- C10 witness: sending a padded string on an open socket transmits
the trimmed payload; queueing it while reconnecting enqueues the
trimmed payload. -/
theorem C10_trimmed_payload_witness :
    jsTrim " hi " = "hi" ∧
    (sendMessage sampleOpenState " hi ").2.sentFrames
        = sampleOpenState.sentFrames ++ [{ type := "message", content := jsTrim " hi " }] ∧
    (sendMessage sampleQueueState " hi ").2.messageQueue
        = sampleQueueState.messageQueue ++ [jsTrim " hi "] := by
  refine ⟨by decide,
          ((C10_trimmed_payload sampleOpenState " hi " (by decide)).1 rfl).1,
          ((C10_trimmed_payload sampleQueueState " hi " (by decide)).2
            (by decide) rfl rfl).1⟩

/-- C6: over any delivered sequence of inbound frames, each frame that
parses is appended to the message log exactly once, in delivery order,
and a frame that fails to parse leaves the whole controller state
unchanged. -/
theorem C6_inbound_frames (s : St) (frames : List (Option ChatMessage)) :
    (processFrames s frames).messages = s.messages ++ frames.filterMap id ∧
    handleMessage s none = s :=
  ⟨processFrames_messages s frames, rfl⟩

/-- C4: when `onopen` fires, the attempt counter is reset to 0 and the
queued payloads are all handed to the socket once, in FIFO order,
leaving the queue empty; against a socket that is not open, the flush
leaves the state (and hence the queue) untouched. -/
theorem C4_onopen_drains (s : St) (hq : ∀ c ∈ s.messageQueue, c ≠ "") :
    (handleOpen s).reconnectAttempts = 0 ∧
    (handleOpen s).messageQueue = [] ∧
    (handleOpen s).sentFrames
        = s.sentFrames ++ s.messageQueue.map (fun c => { type := "message", content := c }) ∧
    (∀ t : St, t.ws ≠ some ReadyState.opened → flushMessageQueue t = t) := by
  refine ⟨?_, ?_, ?_, fun t ht => by simp [flushMessageQueue, ht]⟩ <;>
    simp [handleOpen, flushMessageQueue, updateStatus, flushPayloads_map s.messageQueue hq]

/-- C4 witness: opening after three failed attempts with payloads
`["a", "b"]` queued resets the counter and sends both in order. -/
theorem C4_onopen_drains_witness :
    (handleOpen sampleQueuedState).reconnectAttempts = 0 ∧
    (handleOpen sampleQueuedState).messageQueue = [] ∧
    (handleOpen sampleQueuedState).sentFrames
        = [{ type := "message", content := "a" }, { type := "message", content := "b" }] := by
  have h := C4_onopen_drains sampleQueuedState (by decide)
  exact ⟨h.1, h.2.1, by simpa using h.2.2.1⟩

/-- C5: the outbound queue is emptied by `connect` and by
`disconnect`, and by nothing else: the backoff-timer reattempt
constructs the new link with the queue untouched, and the close,
message and timeout handlers and `sendMessage` never remove queued
payloads. -/
theorem C5_queue_lifecycle (s : St) (u c : String) (code : Nat)
    (f : Option ChatMessage) (content : String) (d : Nat) :
    (connect s u c).messageQueue = [] ∧
    (disconnect s).messageQueue = [] ∧
    (connectInternal s u c).messageQueue = s.messageQueue ∧
    (s.reconnectTimeout = some d →
      step s Event.reconnectFire
        = some (connectInternal { s with reconnectTimeout := none }
            s.connectionParams.username s.connectionParams.channel) ∧
      ∀ s2, step s Event.reconnectFire = some s2 → s2.messageQueue = s.messageQueue) ∧
    (handleClose s code).messageQueue = s.messageQueue ∧
    (handleMessage s f).messageQueue = s.messageQueue ∧
    (connTimeoutHandler s).messageQueue = s.messageQueue ∧
    ((sendMessage s content).2.messageQueue = s.messageQueue ∨
      (sendMessage s content).2.messageQueue = s.messageQueue ++ [jsTrim content]) := by
  refine ⟨?_, ?_, connectInternal_messageQueue s u c, ?_, ?_,
          handleMessage_messageQueue s f, ?_, ?_⟩
  · simp [connect, clearTimeouts, connectInternal_messageQueue]
  · simp only [disconnect, clearTimeouts, updateStatus]
    split <;> rfl
  · intro hd
    constructor
    · simp [step, hd]
    · intro s2 h2
      simp [step, hd] at h2
      rw [← h2, connectInternal_messageQueue]
  · simp only [handleClose, updateStatus]
    split_ifs <;> rfl
  · simp only [connTimeoutHandler, updateStatus]
    split <;> rfl
  · simp only [sendMessage]
    split_ifs <;> simp

/-- C5 witness: the backoff reattempt from a concrete backoff state
preserves the queued payload, while `connect` and `disconnect` clear
it. -/
theorem C5_queue_lifecycle_witness :
    (connect sampleBackoffState "Bob" "random").messageQueue = [] ∧
    (disconnect sampleBackoffState).messageQueue = [] ∧
    (∀ s2, step sampleBackoffState Event.reconnectFire = some s2 →
      s2.messageQueue = ["q1"]) := by
  have h := C5_queue_lifecycle sampleBackoffState "Bob" "random" 1006 none "x" 1000
  exact ⟨h.1, h.2.1, fun s2 h2 => (h.2.2.2.1 rfl).2 s2 h2⟩

/-- C9 witness at the four special codes and one generic code. -/
theorem C9_close_code_policy_witness :
    closeErrorMessage 1006 = some "Connection lost unexpectedly" ∧
    closeErrorMessage 1001 = some "Server is going away" ∧
    closeErrorMessage 1000 = none ∧
    closeErrorMessage 1005 = none ∧
    closeErrorMessage 4000 = some "Connection closed (code: 4000)" := by
  refine ⟨(C9_close_code_policy 1006).1.mpr rfl,
          (C9_close_code_policy 1001).2.1.mpr rfl,
          (C9_close_code_policy 1000).2.2.1.mpr (Or.inl rfl),
          (C9_close_code_policy 1005).2.2.1.mpr (Or.inr rfl),
          ?_⟩
  have h := (C9_close_code_policy 4000).2.2.2 (by decide) (by decide) (by decide) (by decide)
  simpa using h

end Kabaw
